import Mathlib

/-!
# Verification of the qbittorrent-distroless core against its specification

Shallow embedding of the repository's Go core:

* the torrent notifier (`cross-seed.go` and its refined variants):
  event validation (`parseAndValidateReleaseInfo`, `isHexString`),
  the retry engine (`retryOperation`, `isRetriableError`),
  the HTTP status handling of `sendHTTPRequest`,
  size formatting (`formatSize`) and the Pushover message,
  and the per-sink credential gate of `main`;
* the startup supervisor (`qbittorrent-startup.go` variants):
  the argument sanitizer (`sanitizeArgs`, `isValidPort`, `isValidPath`)
  and the child-process supervision of `runQBittorrent`.

Machine integers are modelled as `Int`/`Nat` (overflow checked explicitly
where the source checks it), Go `error` values as an explicit inductive
type, and Go durations as nanosecond counts (as in `time.Duration`).
-/

namespace QbtDistroless

/-- Model of Go `error` values as they occur in the notifier.

* `errorString` — `errors.New` / `fmt.Errorf` without `%w`: the error's only
  data is its message; it implements no further interface.
* `wrapError` — `fmt.Errorf` with `%w`: carries its message and wraps the
  inner error (visible to `errors.As`/`errors.Unwrap`).
* `netError` — a value implementing `net.Error`, with its `Timeout()` and
  `Temporary()` results.
* `dnsError` — a `*net.DNSError`; note that in Go this type also implements
  `net.Error`, with `Timeout() = IsTimeout` and
  `Temporary() = IsTimeout || IsTemporary`, which the model records in its
  two Boolean fields.
* `statusCode` — any error value implementing `interface ⦃ StatusCode() int ⦄`. -/
inductive GoErr where
  | errorString (msg : String)
  | wrapError (msg : String) (inner : GoErr)
  | netError (timeout temporary : Bool) (msg : String)
  | dnsError (timeout temporary : Bool) (msg : String)
  | statusCode (code : Nat) (msg : String)
deriving DecidableEq, Repr

namespace GoErr

/-- The `errors.As` unwrap chain of an error: the error itself followed by
the errors it wraps (`fmt.Errorf` with `%w` exposes exactly one inner error). -/
def chain : GoErr → List GoErr
  | wrapError m inner => wrapError m inner :: chain inner
  | e => [e]

/-- Model of `errors.As(err, &netErr)` for `netErr : net.Error`: the first error in the
unwrap chain implementing `net.Error`, returning its
`(Timeout(), Temporary())` pair.  Both `netError` and `dnsError` implement
`net.Error` in Go. -/
def asNetError (e : GoErr) : Option (Bool × Bool) :=
  e.chain.findSome? fun
    | netError t tmp _ => some (t, tmp)
    | dnsError t tmp _ => some (t, tmp)
    | _ => none

/-- Model of `errors.As(err, &statusErr)` for `statusErr : interface ⦃ StatusCode() int ⦄`:
the first error in the unwrap chain carrying a status code. -/
def asStatusCode (e : GoErr) : Option Nat :=
  e.chain.findSome? fun
    | statusCode c _ => some c
    | _ => none

/-- Model of `errors.As(err, &dnsErr)` for `dnsErr : *net.DNSError`. -/
def asDNSError (e : GoErr) : Bool :=
  e.chain.any fun
    | dnsError _ _ _ => true
    | _ => false

end GoErr

/-- Go function `isRetriableError` (notifier, refined variant, `part_002` lines 452–471):
first the `net.Error` check (returning `Timeout() || Temporary()`), then the
`StatusCode()` check (429 or ≥ 500), then the `*net.DNSError` check. -/
def isRetriableError (e : GoErr) : Bool :=
  match e.asNetError with
  | some (t, tmp) => t || tmp
  | none =>
    match e.asStatusCode with
    | some code => code == 429 || 500 ≤ code
    | none => e.asDNSError

/-- The error `sendHTTPRequest` (`part_002` lines 389–392) returns when the
response status differs from `expectedStatus`:
`fmt.Errorf("unexpected status %d (expected %d)", resp.StatusCode, expectedStatus)`.
`fmt.Errorf` without `%w` produces a plain error value: the observed status
appears only in the message text. -/
def statusMismatchErr (observed expected : Nat) : GoErr :=
  .errorString ("unexpected status " ++ toString observed ++
    " (expected " ++ toString expected ++ ")")

/-! ## Retry engine (`retryOperation`, `part_002` lines 411–450)

The surrounding 10-minute context deadline and signal cancellation are not
exercised by the claims (and cannot fire within the delays involved), so the
model always takes the `time.After(delay)` branch of the `select`.
Delays are nanosecond counts, as in `time.Duration`. -/

/-- Constant `30 * time.Second`, the backoff cap, in nanoseconds. -/
def backoffCapNs : Nat := 30000000000

/-- The delay update after a sleep: `delay *= 2; if delay > 30*time.Second
⦃ delay = 30*time.Second ⦄`. -/
def nextDelay (delay : Nat) : Nat :=
  let d := delay * 2
  if backoffCapNs < d then backoffCapNs else d

/-- Observable outcome of one `retryOperation` run: how many times the
operation was invoked, the sleeps performed between attempts (in order,
nanoseconds), and the returned error (`none` = `nil`). -/
structure RetryTrace where
  calls : Nat
  sleeps : List Nat
  result : Option GoErr
deriving DecidableEq, Repr

/-- The aggregate error built when all attempts are exhausted:
`fmt.Errorf("operation failed after %d attempts: %w", maxAttempts, err)`.
(With `maxAttempts = 0` the loop never runs and `err` is `nil`; `%w` of `nil`
degenerates to a plain error, kept here for faithfulness.) -/
def aggregateErr (maxAttempts : Nat) (last : Option GoErr) : GoErr :=
  match last with
  | some e => .wrapError ("operation failed after " ++ toString maxAttempts ++ " attempts") e
  | none => .errorString ("operation failed after " ++ toString maxAttempts ++ " attempts: %!w(<nil>)")

/-- The loop of `retryOperation`.  `fuel` is the number of attempts still
available (initially `maxAttempts`; the Go loop runs `attempt` from 1 to
`maxAttempts`), `op n` is the error returned by the n-th invocation of the
operation (`none` = success), `calls`/`sleeps` accumulate the trace and
`lastErr` is the Go variable `err`. -/
def retryLoop (op : Nat → Option GoErr) (maxAttempts : Nat) :
    Nat → Nat → Nat → List Nat → Option GoErr → RetryTrace
  | 0, _delay, calls, sleeps, lastErr =>
    ⟨calls, sleeps, some (aggregateErr maxAttempts lastErr)⟩
  | fuel + 1, delay, calls, sleeps, _lastErr =>
    match op (calls + 1) with
    | none => ⟨calls + 1, sleeps, none⟩
    | some e =>
      if !isRetriableError e then ⟨calls + 1, sleeps, some e⟩
      else if fuel == 0 then ⟨calls + 1, sleeps, some (aggregateErr maxAttempts (some e))⟩
      else
        retryLoop op maxAttempts fuel (nextDelay delay) (calls + 1)
          (sleeps ++ [delay]) (some e)

/-- Go function `retryOperation(ctx, maxAttempts, initialDelay, op)` (`part_002`
lines 411–450), as the trace it produces. -/
def retryOperation (maxAttempts initialDelay : Nat) (op : Nat → Option GoErr) : RetryTrace :=
  retryLoop op maxAttempts maxAttempts initialDelay 0 [] none

/-- The backoff sequence the specification describes: `k` sleeps, the first
equal to `initialDelay`, each subsequent one the double of its predecessor
capped at 30 s. -/
def backoffSeq (initialDelay : Nat) : Nat → List Nat
  | 0 => []
  | k + 1 => initialDelay :: backoffSeq (nextDelay initialDelay) k

/-! ## String helpers shared by the Go models -/

/-- Per-character model of `strings.ToLower` / `unicode.ToLower`, restricted
to its ASCII action: `A`–`Z` map to `a`–`z`, everything else is unchanged.
Go's `ToLower` also lowers non-ASCII letters, but no such letter maps to an
ASCII character, so the restriction is invisible to every predicate below
(hex digits, the literal strings of the sanitizer's allow-list). -/
def goToLowerChar (c : Char) : Char :=
  if 65 ≤ c.toNat ∧ c.toNat ≤ 90 then Char.ofNat (c.toNat + 32) else c

/-- Model of `strings.ToLower`. -/
def goToLower (s : String) : String :=
  ⟨s.data.map goToLowerChar⟩

/-- Model of `unicode.IsSpace`: ASCII whitespace, NEL, NBSP and the Unicode
`Zs` space separators. -/
def goIsSpace (c : Char) : Bool :=
  c.toNat == 9 || c.toNat == 10 || c.toNat == 11 || c.toNat == 12 ||
  c.toNat == 13 || c.toNat == 32 || c.toNat == 0x85 || c.toNat == 0xA0 ||
  c.toNat == 0x1680 || (0x2000 ≤ c.toNat && c.toNat ≤ 0x200A) ||
  c.toNat == 0x2028 || c.toNat == 0x2029 || c.toNat == 0x202F ||
  c.toNat == 0x205F || c.toNat == 0x3000

/-- Model of `strings.TrimSpace`: drop `unicode.IsSpace` characters from both
ends. -/
def goTrimSpace (s : String) : String :=
  ⟨((s.data.dropWhile goIsSpace).reverse.dropWhile goIsSpace).reverse⟩

/-- Whether the character list `l` starts with `sub`. -/
def startsWithList : List Char → List Char → Bool
  | [], _ => true
  | _ :: _, [] => false
  | a :: as, b :: bs => a == b && startsWithList as bs

/-- Whether `sub` occurs contiguously inside `l`. -/
def hasSubList (l sub : List Char) : Bool :=
  match l with
  | [] => sub.isEmpty
  | _ :: tl => startsWithList sub l || hasSubList tl sub

/-- Model of `strings.Contains`. -/
def goContains (s sub : String) : Bool :=
  hasSubList s.data sub.data

/-- Model of `strings.HasPrefix`. -/
def goHasPre (s pre : String) : Bool :=
  startsWithList pre.data s.data

/-- Model of `strings.HasSuffix`. -/
def goHasSuf (s suf : String) : Bool :=
  startsWithList suf.data.reverse s.data.reverse

/-- Model of `strings.TrimSuffix`. -/
def goTrimSuf (s suf : String) : String :=
  if goHasSuf s suf then ⟨s.data.take (s.data.length - suf.data.length)⟩ else s

/-- Digit accumulation for `strconv.ParseInt` in base 10: consume every
remaining character, failing on a non-digit. -/
def parseDigitsAux : List Char → Nat → Option Nat
  | [], acc => some acc
  | c :: cs, acc =>
    if 48 ≤ c.toNat ∧ c.toNat ≤ 57 then parseDigitsAux cs (acc * 10 + (c.toNat - 48))
    else none

/-- Model of `strconv.ParseInt(s, 10, 64)` (also `strconv.Atoi`, whose result
feeds 64-bit-safe comparisons only): optional sign, at least one decimal
digit, no other characters, result within the `int64` range.  Go returns a
non-nil error (syntax or range) exactly in the `none` cases; the notifier
only ever branches on error versus success. -/
def parseInt64 (s : String) : Option Int :=
  match s.data with
  | [] => none
  | c :: cs =>
    let signed : Bool × List Char :=
      if c == '+' then (false, cs) else if c == '-' then (true, cs) else (false, c :: cs)
    match signed with
    | (neg, digits) =>
      if digits.isEmpty then none
      else
        match parseDigitsAux digits 0 with
        | none => none
        | some n =>
          if neg then (if n ≤ 2 ^ 63 then some (-(n : Int)) else none)
          else (if n ≤ 2 ^ 63 - 1 then some (n : Int) else none)

/-! ## Size formatting (`formatSize`, `cross-seed.go` lines 281–292) -/

/-- The loop of `formatSize`: `div, exp := int64(unit), 0; for n := size /
unit; n >= unit; n /= unit ⦃ div *= unit; exp++ ⦄`.  `fuel` bounds the
iteration count for structural recursion; `n` shrinks at every step, so
`fuel = n` always suffices and the model is exact for every input. -/
def formatSizeLoop : Nat → Nat → Nat → Nat → Nat × Nat
  | 0, _n, div, exp => (div, exp)
  | fuel + 1, n, div, exp =>
    if 1024 ≤ n then formatSizeLoop fuel (n / 1024) (div * 1024) (exp + 1)
    else (div, exp)

/-- Rendering of `fmt.Sprintf("%.2f", x)` for the exact rational
`num / den`, rounding to two decimals half-to-even as Go's float formatting
does.  It agrees with the Go code whenever `num / den` is exactly
representable in `float64` (in particular at every power of 1024, where the
quotient is exactly 1). -/
def formatFixed2 (num den : Nat) : String :=
  let q := (100 * num) / den
  let r := (100 * num) % den
  let c := if 2 * r < den then q
    else if den < 2 * r then q + 1
    else if q % 2 == 0 then q else q + 1
  let frac := c % 100
  toString (c / 100) ++ "." ++ (if frac < 10 then "0" else "") ++ toString frac

/-- The unit characters `"KMGTPE"` indexed by `exp` (Go would panic out of
range; for `int64` inputs `exp ≤ 5`, so the default is unreachable). -/
def sizeUnitChar (exp : Nat) : String :=
  String.singleton (['K', 'M', 'G', 'T', 'P', 'E'].getD exp 'K')

/-- Go function `formatSize` (`cross-seed.go` lines 281–292): sizes below
1024 print as `"%d B"`; larger sizes print as `"%.2f %ciB"` with the
base-1024 divisor and unit found by `formatSizeLoop`. -/
def formatSize (size : Int) : String :=
  if size < 1024 then toString size ++ " B"
  else
    let n := size.toNat
    let (div, exp) := formatSizeLoop n (n / 1024) 1024 0
    formatFixed2 n div ++ " " ++ sizeUnitChar exp ++ "iB"

/-- The Pushover message body built by `sendPushoverNotification`
(`cross-seed.go` lines 225–230): the release name with a trailing
`".torrent"` stripped, the category, the indexer hostname and the
human-readable size, in the fixed HTML skeleton. -/
def pushoverMessage (name category hostname : String) (size : Int) : String :=
  "<b>" ++ goTrimSuf name ".torrent" ++ "</b><small>\n<b>Category:</b> " ++
    category ++ "</small><small>\n<b>Indexer:</b> " ++ hostname ++
    "</small><small>\n<b>Size:</b> " ++ formatSize size ++ "</small>"

/-! ## Argument sanitizer (`sanitizeArgs`, startup supervisor,
`part_004` lines 576–654) -/

/-- Go function `isValidPort` (`part_004` lines 645–648):
`strconv.Atoi` succeeds and `0 < p && p <= 65535`. -/
def isValidPort (port : String) : Bool :=
  match parseInt64 port with
  | some p => 0 < p && p ≤ 65535
  | none => false

/-- Go function `isValidPath` (`part_004` lines 650–654): no `".."`, no
leading `"/"`, no `"$"`. -/
def isValidPath (path : String) : Bool :=
  !(goContains path "..") && !(goHasPre path "/") && !(goContains path "$")

/-- One entry of the `allowedOptions` map: `expectsValue`, the
`allowedValues` set (as the list of its keys, all mapped to `true` in the
source) and the optional `validator` function. -/
structure AllowedOption where
  expectsValue : Bool
  allowedValues : List String
  validator : Option (String → Bool)

/-- The `allowedOptions` map (`part_004` lines 368–404) as a lookup
function. -/
def allowedOptions : String → Option AllowedOption
  | "-h" => some ⟨false, [], none⟩
  | "--help" => some ⟨false, [], none⟩
  | "-v" => some ⟨false, [], none⟩
  | "--version" => some ⟨false, [], none⟩
  | "--confirm-legal-notice" => some ⟨false, [], none⟩
  | "--webui-port" => some ⟨true, [], some isValidPort⟩
  | "--torrenting-port" => some ⟨true, [], some isValidPort⟩
  | "-d" => some ⟨false, [], none⟩
  | "--daemon" => some ⟨false, [], none⟩
  | "--profile" => some ⟨true, [], some isValidPath⟩
  | "--configuration" => some ⟨true, [], none⟩
  | "--relative-fastresume" => some ⟨false, [], none⟩
  | "--save-path" => some ⟨true, [], some isValidPath⟩
  | "--add-stopped" => some ⟨true, ["true", "false"], none⟩
  | "--skip-hash-check" => some ⟨false, [], none⟩
  | "--category" => some ⟨true, [], none⟩
  | "--sequential" => some ⟨false, [], none⟩
  | "--first-and-last" => some ⟨false, [], none⟩
  | "--skip-dialog" => some ⟨true, ["true", "false"], none⟩
  | _ => none

/-- Short-flag canonicalization at the top of the loop body (`-h`/`-v`/`-d`
to their long forms). -/
def canonAlias (a : String) : String :=
  match a with
  | "-h" => "--help"
  | "-v" => "--version"
  | "-d" => "--daemon"
  | _ => a

/-- Model of `strings.SplitN(s, "=", 2)`: the part before the first `'='`
and the part after it (the source only calls it under a
`strings.Contains(s, "=")` guard). -/
def splitAtEq : List Char → List Char × List Char
  | [] => ([], [])
  | c :: cs =>
    if c == '=' then ([], cs)
    else
      match splitAtEq cs with
      | (a, b) => (c :: a, b)

/-- Value validation in `sanitizeArgs`: `valid := true; switch ⦃ case
opt.validator != nil: valid = opt.validator(value); case
len(opt.allowedValues) > 0: valid = opt.allowedValues[strings.ToLower(value)] ⦄`. -/
def optionValueValid (opt : AllowedOption) (value : String) : Bool :=
  match opt.validator with
  | some f => f value
  | none =>
    if 0 < opt.allowedValues.length then opt.allowedValues.contains (goToLower value)
    else true

/-- Appending the accepted value: `if value != "" ⦃ sanitized =
append(sanitized, value) ⦄`. -/
def consVal (value : String) (tail : List String) : List String :=
  if value == "" then tail else value :: tail

/-- One iteration of the `sanitizeArgs` loop body (`part_004`
lines 580–640) on the current token `a0` with remaining tokens `rest`:
canonicalize aliases; on a literal `"--"` append the whole remaining suffix
and stop; a token absent from the allow-list (or without a `-`) passes
through as `originalArg`; a value-less recognized flag passes through
canonicalized; a value-taking flag reads its value from the `"="` split
(dead in practice: map keys never contain `"="`, and the lookup used the
unsplit token) or from the following token, keeps flag and value if the
value validates and drops both otherwise.  `tailRes` and `tail2Res` are the
results of the loop on `rest` and on `rest` without its first element (the
latter used when that element was consumed as a value). -/
def sanitizeHead (a0 : String) (rest : List String)
    (tailRes tail2Res : List String) : List String :=
  let arg := canonAlias a0
  if arg == "--" then a0 :: rest
  else
    match allowedOptions arg with
    | none => a0 :: tailRes
    | some opt =>
      if !(goHasPre arg "-") then a0 :: tailRes
      else if !opt.expectsValue then arg :: tailRes
      else if goContains arg "=" then
        match splitAtEq arg.data with
        | (a, b) =>
          if optionValueValid opt ⟨b⟩ then (⟨a⟩ : String) :: consVal ⟨b⟩ tailRes
          else tailRes
      else
        match rest with
        | [] => if optionValueValid opt "" then [arg] else []
        | v :: _ =>
          if optionValueValid opt v then arg :: consVal v tail2Res else tail2Res

/-- The loop of `sanitizeArgs`, recursing on the remaining argument suffix
`args[i:]` and delegating each iteration to `sanitizeHead`. -/
def sanitizeLoop : List String → List String
  | [] => []
  | [a0] => sanitizeHead a0 [] [] []
  | a0 :: v :: rest2 =>
    sanitizeHead a0 (v :: rest2) (sanitizeLoop (v :: rest2)) (sanitizeLoop rest2)

/-- Go function `sanitizeArgs` (`part_004` lines 576–643). -/
def sanitizeArgs (args : List String) : List String :=
  sanitizeLoop args

/-! ## Notifier configuration gate (`main`, `part_002` lines 115–145)

The rate-limiter waits and the sink send results do not affect control flow
(`limiter.Wait` only fails on context cancellation, and a sink error is
logged without propagating), so the model records which sinks are
dispatched and whether the process aborts via `os.Exit(1)`. -/

/-- The notifier `Config` (`part_002` lines 45–52). -/
structure Config where
  CrossSeedEnabled : Bool
  CrossSeedURL : String
  CrossSeedAPIKey : String
  PushoverEnabled : Bool
  PushoverUserKey : String
  PushoverToken : String
deriving DecidableEq, Repr

/-- The two notification sinks. -/
inductive Sink where
  | pushover
  | crossSeed
deriving DecidableEq, Repr

/-- Outcome of the sink-dispatch section of `main`: either the process called
`os.Exit code` (having dispatched `dispatched` before aborting), or it ran
to completion having dispatched `dispatched`. -/
inductive DispatchOutcome where
  | exited (code : Nat) (dispatched : List Sink)
  | completed (dispatched : List Sink)
deriving DecidableEq, Repr

/-- The Pushover block of `main` (`part_002` lines 115–128): if enabled but
`PushoverUserKey` or `PushoverToken` is empty, log and `os.Exit(1)`;
otherwise dispatch the sink (errors only logged). -/
def pushoverBlock (cfg : Config) : Except Nat (List Sink) :=
  if cfg.PushoverEnabled then
    if cfg.PushoverUserKey == "" || cfg.PushoverToken == "" then .error 1
    else .ok [Sink.pushover]
  else .ok []

/-- The CrossSeed block of `main` (`part_002` lines 130–143): if enabled but
`CrossSeedURL` or `CrossSeedAPIKey` is empty, log and `os.Exit(1)`;
otherwise dispatch the sink (errors only logged). -/
def crossSeedBlock (cfg : Config) : Except Nat (List Sink) :=
  if cfg.CrossSeedEnabled then
    if cfg.CrossSeedURL == "" || cfg.CrossSeedAPIKey == "" then .error 1
    else .ok [Sink.crossSeed]
  else .ok []

/-- The sink-dispatch section of `main`, Pushover first, then CrossSeed. -/
def dispatchSinks (cfg : Config) : DispatchOutcome :=
  match pushoverBlock cfg with
  | .error code => .exited code []
  | .ok d1 =>
    match crossSeedBlock cfg with
    | .error code => .exited code d1
    | .ok d2 => .completed (d1 ++ d2)

/-- Whether the dispatch section aborted the process. -/
def DispatchOutcome.aborted : DispatchOutcome → Bool
  | .exited _ _ => true
  | .completed _ => false

/-- The sinks dispatched before the section finished or aborted. -/
def DispatchOutcome.dispatched : DispatchOutcome → List Sink
  | .exited _ d => d
  | .completed d => d

/-! ## Process supervisor (`runQBittorrent`, `part_005` lines 169–201 and
`part_004` lines 656–689; `main`, `part_005` lines 29–59)

Time is measured in nanoseconds from the arrival of the cancellation
signal.  The `select` race between the child's exit and the signal context,
and then between `time.After(30s)` and the child's exit, is resolved by an
explicit description of the run: either the child exits first, or the
signal arrives first and the child then exits `tNs` after cancellation (or
never).

The child is created with `exec.CommandContext(ctx, ...)` on the very
cancellation context, and the `os/exec` contract for `CommandContext` is
that the child process is killed — `os.Process.Kill`, i.e. SIGKILL to the
child's pid (not its group) — as soon as the context becomes done.  The
model therefore records, on every cancellation, this immediate exec-package
SIGKILL alongside the supervisor's own explicit `syscall.Kill` calls.  The
two time-0 signals (the exec-package kill and the supervisor's group
SIGTERM) are issued concurrently; the model lists the kill first, the order
within time 0 being unspecified in the program. -/

/-- Result of `cmd.Start()`. -/
inductive SpawnOutcome where
  | started
  | failed (msg : String)
deriving DecidableEq, Repr

/-- Resolution of the supervisor's races for one run: the child exits before
any signal, or cancellation arrives first and the child exits `tNs`
nanoseconds later (with `res` the `cmd.Wait()` result — after cancellation
normally the killed-by-signal error, since the exec package SIGKILLs the
child at once), or it never exits. -/
inductive RunEvent where
  | childExit (res : Option GoErr)
  | cancelThenExit (tNs : Nat) (res : Option GoErr)
  | cancelNoExit
deriving DecidableEq, Repr

/-- Signals sent by the supervisor. -/
inductive Sig where
  | sigterm
  | sigkill
deriving DecidableEq, Repr

/-- One signal delivery to the child: the signal, whether it was addressed
to the whole process group (`-cmd.Process.Pid`, as in the supervisor's
explicit `syscall.Kill` calls) or to the child's pid only (as in the exec
package's context kill), and the time it was sent, in nanoseconds after the
cancellation signal arrived. -/
structure SigAction where
  sig : Sig
  toGroup : Bool
  atNs : Nat
deriving DecidableEq, Repr

/-- Observable result of `runQBittorrent`: the signals sent and the returned
error (`none` = `nil`). -/
structure RunResult where
  signals : List SigAction
  err : Option GoErr
deriving DecidableEq, Repr

/-- The grace period `30 * time.Second` in nanoseconds. -/
def graceNs : Nat := 30000000000

/-- The error returned for a child that exited on its own:
`fmt.Errorf("process exited unexpectedly: %w", err)` (non-nil even when the
child's own result was nil). -/
def processExitedErr (res : Option GoErr) : GoErr :=
  match res with
  | some e => .wrapError "process exited unexpectedly" e
  | none => .errorString "process exited unexpectedly: %!w(<nil>)"

/-- The error returned after escalation to SIGKILL:
`fmt.Errorf("forced shutdown after timeout")`. -/
def forcedShutdownErr : GoErr :=
  .errorString "forced shutdown after timeout"

/-- The kill performed by the `os/exec` package itself because the command
was created with `exec.CommandContext` on the cancellation context:
`os.Process.Kill` — SIGKILL to the child's pid, not its group — issued
immediately when the context becomes done. -/
def execContextKill : SigAction :=
  ⟨.sigkill, false, 0⟩

/-- Go function `runQBittorrent` after a successful spawn: race the child's
exit against the signal context; on cancellation the exec package kills the
child at once (`execContextKill`) while the supervisor sends SIGTERM to the
process group and then races `time.After(30s)` against the child's exit,
escalating to a group SIGKILL at the 30 s mark. -/
def supervise (ev : RunEvent) : RunResult :=
  match ev with
  | .childExit res => ⟨[], some (processExitedErr res)⟩
  | .cancelThenExit tNs res =>
    if tNs < graceNs then ⟨[execContextKill, ⟨.sigterm, true, 0⟩], res⟩
    else ⟨[execContextKill, ⟨.sigterm, true, 0⟩, ⟨.sigkill, true, graceNs⟩],
      some forcedShutdownErr⟩
  | .cancelNoExit =>
    ⟨[execContextKill, ⟨.sigterm, true, 0⟩, ⟨.sigkill, true, graceNs⟩],
      some forcedShutdownErr⟩

/-- Go function `runQBittorrent` (`part_005` lines 169–201): `cmd.Start()`
failure is returned as a wrapped spawn error before any supervision. -/
def runQBittorrent (spawn : SpawnOutcome) (ev : RunEvent) : RunResult :=
  match spawn with
  | .failed msg => ⟨[], some (.wrapError "failed to start process" (.errorString msg))⟩
  | .started => supervise ev

/-- Exit code of the supervisor `main` (`part_005` lines 29–59):
`os.Exit(1)` if `setupEnvironment`, `initializeConfig` or `runQBittorrent`
fails, otherwise the process finishes normally (exit 0). -/
def supervisorExitCode (envOk cfgOk : Bool) (spawn : SpawnOutcome) (ev : RunEvent) : Nat :=
  if !envOk then 1
  else if !cfgOk then 1
  else if (runQBittorrent spawn ev).err.isSome then 1
  else 0

/-- Clean supervised shutdown: environment and configuration set up, spawn
succeeded, a cancellation signal arrived, and the child exited with a nil
result within the grace period. -/
def CleanShutdown (envOk cfgOk : Bool) (spawn : SpawnOutcome) (ev : RunEvent) : Prop :=
  envOk = true ∧ cfgOk = true ∧ spawn = .started ∧
    ∃ tNs, tNs < graceNs ∧ ev = .cancelThenExit tNs none

/-! ## Event validation (`parseAndValidateReleaseInfo`, `part_002`
lines 239–263, with `isHexString` lines 31–34 and the `infohash` validator
lines 63–72)

Go measures string length in UTF-8 bytes; the model measures characters.
The two agree on every predicate below: a multi-byte character both
inflates the byte count and fails the hex-digit test, so the accepted
strings coincide. -/

/-- Per-character test of `encoding/hex`: decimal digits, `a`–`f`, `A`–`F`. -/
def isHexDigitGo (c : Char) : Bool :=
  (48 ≤ c.toNat && c.toNat ≤ 57) ||
  (97 ≤ c.toNat && c.toNat ≤ 102) ||
  (65 ≤ c.toNat && c.toNat ≤ 70)

/-- Go function `isHexString` (`part_002` lines 31–34):
`hex.DecodeString(s)` succeeds exactly when the length is even and every
character is a hexadecimal digit. -/
def isHexString (s : String) : Bool :=
  s.length % 2 == 0 && s.data.all isHexDigitGo

/-- The custom `infohash` validator (`part_002` lines 63–67):
`len(hash) == 40 && isHexString(hash)`. -/
def infohashTag (hash : String) : Bool :=
  hash.length == 40 && isHexString hash

/-- Modelled from the spec: the go-playground/validator `url` tag (library
code, not under `src/`).  Spec §4.1: `indexerURL` must parse as an absolute
URL with scheme `http` or `https`; modelled as one of those schemes followed
by a non-empty remainder. -/
def specURLValid (s : String) : Bool :=
  (goHasPre s "http://" && 7 < s.length) || (goHasPre s "https://" && 8 < s.length)

/-- The `ReleaseInfo` struct (`part_002` lines 54–61).  The Go field `Type`
(the spec's `kind`) is named `Kind` here because `Type` is reserved in
Lean. -/
structure ReleaseInfo where
  Name : String
  InfoHash : String
  Category : String
  Size : Int
  Indexer : String
  Kind : String
deriving DecidableEq, Repr

/-- Model of `validate.Struct` over the `ReleaseInfo` tags
(`required`, `required,infohash`, `required`, `gt=0`, `required,url`,
`required`), returning the first failing field and tag (the notifier only
tests the result against `nil`). -/
def validateStruct (r : ReleaseInfo) : Option (String × String) :=
  if r.Name == "" then some ("Name", "required")
  else if r.InfoHash == "" then some ("InfoHash", "required")
  else if !infohashTag r.InfoHash then some ("InfoHash", "infohash")
  else if r.Category == "" then some ("Category", "required")
  else if !(0 < r.Size) then some ("Size", "gt")
  else if r.Indexer == "" then some ("Indexer", "required")
  else if !specURLValid r.Indexer then some ("Indexer", "url")
  else if r.Kind == "" then some ("Type", "required")
  else none

/-- The distinct failure classes of `parseAndValidateReleaseInfo`:
wrong argument count (`errors.New("invalid number of arguments (need 5)")`),
size-parse failure (`fmt.Errorf("invalid size: %w", err)`) and struct
validation failure (`fmt.Errorf("validation failed: %w", err)`, with the
failing field and tag carried by the wrapped validator error). -/
inductive ReleaseParseErr where
  | wrongArgCount
  | invalidSize
  | validationFailed (field tag : String)
deriving DecidableEq, Repr

/-- Go function `parseAndValidateReleaseInfo` (`part_002` lines 239–263). -/
def parseAndValidateReleaseInfo (args : List String) : Except ReleaseParseErr ReleaseInfo :=
  if args.length != 5 then .error .wrongArgCount
  else
    match parseInt64 (args.getD 3 "") with
    | none => .error .invalidSize
    | some size =>
      let release : ReleaseInfo := {
        Name := goTrimSpace (args.getD 0 "")
        InfoHash := goToLower (goTrimSpace (args.getD 1 ""))
        Category := goTrimSpace (args.getD 2 "")
        Size := size
        Indexer := goTrimSpace (args.getD 4 "")
        Kind := "Torrent" }
      match validateStruct release with
      | some ft => .error (.validationFailed ft.1 ft.2)
      | none => .ok release

/-- Whether an `Except` result is a success. -/
def exceptOk {ε α : Type} : Except ε α → Bool
  | .ok _ => true
  | .error _ => false

/-- The specification's acceptance predicate for the infoHash argument
(§4.1/§8, stated over the raw argument): after trimming surrounding
whitespace the string has length exactly 40 and every character is a
hexadecimal digit, case-insensitively (`isHexDigitGo` accepts both cases). -/
def specInfoHashAccepted (raw : String) : Bool :=
  (goTrimSpace raw).length == 40 && (goTrimSpace raw).data.all isHexDigitGo

/-- The specification's acceptance predicate for the size argument (§4.1):
parses as a base-10 integer strictly greater than zero. -/
def specSizeAccepted (raw : String) : Bool :=
  match parseInt64 raw with
  | some n => 0 < n
  | none => false

/-- Pushover enabled with a missing credential (`part_002` line 116). -/
def pushoverMissingCreds (cfg : Config) : Bool :=
  cfg.PushoverEnabled && (cfg.PushoverUserKey == "" || cfg.PushoverToken == "")

/-- CrossSeed enabled with a missing credential (`part_002` line 131). -/
def crossSeedMissingCreds (cfg : Config) : Bool :=
  cfg.CrossSeedEnabled && (cfg.CrossSeedURL == "" || cfg.CrossSeedAPIKey == "")

/-! ## Theorems -/

/-- Characterization of the sink-dispatch section: a missing credential on an
enabled sink makes `main` call `os.Exit(1)` at that sink's check, so the
process aborts and later sinks never run. -/
theorem dispatchSinks_eq (cfg : Config) :
    dispatchSinks cfg =
      (if pushoverMissingCreds cfg then .exited 1 []
       else if crossSeedMissingCreds cfg then
         .exited 1 (if cfg.PushoverEnabled then [Sink.pushover] else [])
       else .completed ((if cfg.PushoverEnabled then [Sink.pushover] else []) ++
         (if cfg.CrossSeedEnabled then [Sink.crossSeed] else []))) := by
  rcases cfg with ⟨cse, csu, csk, pe, pu, pt⟩
  cases pe <;> cases cse <;>
    simp only [dispatchSinks, pushoverBlock, crossSeedBlock, pushoverMissingCreds,
      crossSeedMissingCreds, Bool.false_and, Bool.true_and, if_true, if_false,
      Bool.and_self] <;>
    by_cases h1 : (pu == "" || pt == "") = true <;>
    by_cases h2 : (csu == "" || csk == "") = true <;>
    simp_all

/-- C1, counterexample: with Pushover enabled but its credentials empty, and
CrossSeed enabled with full credentials, the notifier aborts the whole
process with exit code 1 and the CrossSeed sink is never dispatched —
contradicting the claim that only the misconfigured sink is skipped and the
process does not abort. -/
theorem C1_counterexample :
    dispatchSinks ⟨true, "http://cs.local", "secret", true, "", ""⟩ =
        .exited 1 [] ∧
      (dispatchSinks ⟨true, "http://cs.local", "secret", true, "", ""⟩).aborted = true ∧
      Sink.crossSeed ∉
        (dispatchSinks ⟨true, "http://cs.local", "secret", true, "", ""⟩).dispatched := by
  refine ⟨by decide, by decide, by decide⟩

/-- C1, amended: an enabled sink with an empty required credential is
reported and makes the process abort with `os.Exit(1)` at that sink's
check; sinks checked earlier (Pushover is checked before CrossSeed) have
already been dispatched, the failing sink and all later sinks are not; if
no enabled sink has missing credentials, every enabled sink is dispatched
and the process completes. -/
theorem C1_missing_credentials_abort_process (cfg : Config) :
    ((dispatchSinks cfg).aborted = true ↔
      (pushoverMissingCreds cfg = true ∨ crossSeedMissingCreds cfg = true)) ∧
    (pushoverMissingCreds cfg = true → dispatchSinks cfg = .exited 1 []) ∧
    (pushoverMissingCreds cfg = false → crossSeedMissingCreds cfg = true →
      dispatchSinks cfg =
        .exited 1 (if cfg.PushoverEnabled then [Sink.pushover] else [])) ∧
    (pushoverMissingCreds cfg = false → crossSeedMissingCreds cfg = false →
      dispatchSinks cfg =
        .completed ((if cfg.PushoverEnabled then [Sink.pushover] else []) ++
          (if cfg.CrossSeedEnabled then [Sink.crossSeed] else []))) := by
  have h := dispatchSinks_eq cfg
  by_cases h1 : pushoverMissingCreds cfg = true <;>
    by_cases h2 : crossSeedMissingCreds cfg = true <;>
    simp_all [DispatchOutcome.aborted]

/-- C1, witness for the amended theorem at a concrete configuration: both
sinks enabled, CrossSeed missing its API key — Pushover is dispatched, then
the process aborts with exit code 1. -/
theorem C1_missing_credentials_abort_process_witness :
    dispatchSinks ⟨true, "http://cs.local", "", true, "user", "token"⟩ =
      .exited 1 [Sink.pushover] := by
  have h := (C1_missing_credentials_abort_process
    ⟨true, "http://cs.local", "", true, "user", "token"⟩).2.2.1 (by decide) (by decide)
  simpa using h

/-- C2: the size embedded in the Pushover notification uses base-1024
binary-prefixed units with two-decimal precision — 1024 bytes render as
`"1.00 KiB"`, 1073741824 bytes as `"1.00 GiB"`, and the message built by
`sendPushoverNotification` embeds the rendered size. -/
theorem C2_pushover_size_base1024 :
    formatSize 1024 = "1.00 KiB" ∧
    formatSize 1073741824 = "1.00 GiB" ∧
    pushoverMessage "Show.S01E01.mkv" "tv" "indexer.example" 1073741824 =
      "<b>Show.S01E01.mkv</b><small>\n<b>Category:</b> tv</small><small>\n<b>Indexer:</b> indexer.example</small><small>\n<b>Size:</b> 1.00 GiB</small>" ∧
    formatSize 1048576 = "1.00 MiB" ∧ formatSize 1536 = "1.50 KiB" := by
  refine ⟨by decide, by decide, by decide, by decide, by decide⟩

/-- C3: the status-mismatch error built by `sendHTTPRequest` is a plain
formatted error without a `StatusCode()` method, so `isRetriableError`
classifies it as non-retriable (for 503 and even for 429) and
`retryOperation` stops after a single attempt; the classifier itself does
treat errors that carry a `StatusCode()` as retriable exactly for 429 and
≥ 500.  This contradicts the claim that the returned error carries the
observed status code for the retry classifier to inspect. -/
theorem C3_status_mismatch_not_retriable :
    isRetriableError (statusMismatchErr 503 200) = false ∧
    isRetriableError (statusMismatchErr 429 200) = false ∧
    (retryOperation 3 2000000000 (fun _ => some (statusMismatchErr 503 200))).calls = 1 ∧
    (retryOperation 3 2000000000 (fun _ => some (statusMismatchErr 503 200))).result =
      some (statusMismatchErr 503 200) ∧
    isRetriableError (.statusCode 429 "too many requests") = true ∧
    isRetriableError (.statusCode 503 "unavailable") = true ∧
    isRetriableError (.statusCode 500 "internal") = true ∧
    isRetriableError (.statusCode 404 "not found") = false ∧
    isRetriableError (.statusCode 400 "bad request") = false := by
  refine ⟨by decide, by decide, by decide, by decide, by decide, by decide, by decide,
    by decide, by decide⟩

/-- C6: the token `"--webui-port=99999"` is not in the allow-list map (the
lookup happens before the `"="` split), so it passes through unchanged
instead of being dropped; the same applies to `"--webui-port=8080"` (retained
verbatim, but by fall-through, not validation).  The validator does run for
the two-token form: `"--webui-port 99999"` is dropped and
`"--webui-port 8080"` retained.  Everything from a leading bare `"--"`
onward passes through unchanged. -/
theorem C6_port_filtering :
    sanitizeArgs ["--webui-port=99999"] = ["--webui-port=99999"] ∧
    sanitizeArgs ["--webui-port=8080"] = ["--webui-port=8080"] ∧
    sanitizeArgs ["--webui-port", "99999"] = [] ∧
    sanitizeArgs ["--webui-port", "8080"] = ["--webui-port", "8080"] ∧
    sanitizeArgs ["a", "--", "--webui-port", "99999"] =
      ["a", "--", "--webui-port", "99999"] ∧
    (∀ rest : List String, sanitizeArgs ("--" :: rest) = "--" :: rest) := by
  refine ⟨by decide, by decide, by decide, by decide, by decide, fun rest => ?_⟩
  cases rest <;> rfl

/-- C4: a child that exits before any cancellation signal is always reported
as a "process exited" error — even a clean exit — and the supervisor's exit
code is 0 exactly on a clean supervised shutdown (signal, then child exit
with nil result within the grace period), with every validation failure,
spawn failure, forced kill or unexpected child exit yielding a non-zero
code. -/
theorem C4_exit_reporting_and_exit_code :
    (∀ res : Option GoErr,
      ((runQBittorrent .started (.childExit res)).err).isSome = true) ∧
    (∀ (envOk cfgOk : Bool) (spawn : SpawnOutcome) (ev : RunEvent),
      supervisorExitCode envOk cfgOk spawn ev = 0 ↔
        CleanShutdown envOk cfgOk spawn ev) := by
  constructor
  · intro res
    cases res <;> rfl
  · intro envOk cfgOk spawn ev
    cases ev with
    | childExit res =>
      cases envOk <;> cases cfgOk <;> cases spawn <;> cases res <;>
        simp [supervisorExitCode, runQBittorrent, supervise, CleanShutdown,
          processExitedErr]
    | cancelNoExit =>
      cases envOk <;> cases cfgOk <;> cases spawn <;>
        simp [supervisorExitCode, runQBittorrent, supervise, CleanShutdown,
          forcedShutdownErr]
    | cancelThenExit t res =>
      cases envOk <;> cases cfgOk <;> cases spawn <;>
        by_cases ht : t < graceNs <;> cases res <;>
        simp [supervisorExitCode, runQBittorrent, supervise, CleanShutdown,
          forcedShutdownErr, ht, eq_comm]

/-- C7: the claim's grace-period guarantee fails on the code.  The child is
spawned with `exec.CommandContext(ctx, ...)` on the cancellation context
itself, so the moment the cancellation signal arrives the exec package
SIGKILLs the child's pid — at time 0, concurrently with the supervisor's
group SIGTERM — rather than no earlier than 30 seconds later and only if
the child has not exited; a child that would have exited in response to
SIGTERM within the grace period has already been killed.  The supervisor's
own explicit escalation (group SIGKILL exactly at the 30 s mark, with the
forced-shutdown error) shows the intended graceful window. -/
theorem C7_context_kill_on_cancel :
    (runQBittorrent .started (.cancelThenExit 1000000000 none)).signals =
      [execContextKill, ⟨.sigterm, true, 0⟩] ∧
    execContextKill.sig = .sigkill ∧
    execContextKill.atNs = 0 ∧
    execContextKill.toGroup = false ∧
    (runQBittorrent .started .cancelNoExit).signals =
      [execContextKill, ⟨.sigterm, true, 0⟩, ⟨.sigkill, true, graceNs⟩] ∧
    (runQBittorrent .started .cancelNoExit).err = some forcedShutdownErr ∧
    graceNs = 30 * 1000000000 := by
  refine ⟨by decide, rfl, rfl, rfl, by decide, by decide, by decide⟩

/-- C10, counterexample: a `--profile` value supplied in `--flag=value` form
that contains `".."` is not dropped — the joined token is not an
allow-list key, so it passes through to the daemon unchanged, contradicting
the claim that a violating value causes the flag and value to be dropped. -/
theorem C10_counterexample :
    sanitizeArgs ["--profile=../escape"] = ["--profile=../escape"] ∧
    isValidPath "../escape" = false := by
  refine ⟨by decide, by decide⟩

/-- Behaviour of one sanitizer step on a recognized value-taking flag with a
validator, the value given as the following token. -/
theorem sanitizeLoop_validator_flag (flag v : String) (f : String → Bool)
    (hc : canonAlias flag = flag) (hne : (flag == "--") = false)
    (ho : allowedOptions flag = some ⟨true, [], some f⟩)
    (hp : goHasPre flag "-" = true) (he : goContains flag "=" = false) :
    sanitizeLoop [flag, v] = if f v then flag :: consVal v [] else [] := by
  have h0 : sanitizeLoop [flag, v] = sanitizeHead flag [v] (sanitizeLoop [v]) [] := rfl
  rw [h0]
  simp only [sanitizeHead, hc, hne, ho, hp, he]
  simp [optionValueValid]

/-- C10, amended: for values supplied as the separate following token, a
`--profile` or `--save-path` value is retained exactly when `isValidPath`
holds of it (no `".."`, no leading `"/"`, no `"$"`); an invalid value makes
the sanitizer drop both the flag and the value.  A value joined to the flag
with `"="` is outside the allow-list and the whole token passes through
unchanged. -/
theorem C10_path_value_filtering (v : String) :
    sanitizeArgs ["--profile", v] =
      (if isValidPath v then "--profile" :: consVal v [] else []) ∧
    sanitizeArgs ["--save-path", v] =
      (if isValidPath v then "--save-path" :: consVal v [] else []) := by
  refine ⟨?_, ?_⟩ <;>
    exact sanitizeLoop_validator_flag _ v isValidPath rfl rfl rfl rfl rfl

/-- Exhaustion behaviour of the retry loop when every attempt fails with a
retriable error: each remaining attempt is consumed, sleeping the current
delay before the next one and doubling (capped) afterwards. -/
theorem retryLoop_exhausts (op : Nat → Option GoErr) (e : Nat → GoErr)
    (hop : ∀ i, op i = some (e i)) (hr : ∀ i, isRetriableError (e i) = true)
    (maxAttempts : Nat) :
    ∀ fuel calls delay sleeps last, 1 ≤ fuel →
      retryLoop op maxAttempts fuel delay calls sleeps last =
        ⟨calls + fuel, sleeps ++ backoffSeq delay (fuel - 1),
          some (aggregateErr maxAttempts (some (e (calls + fuel))))⟩ := by
  intro fuel
  induction fuel with
  | zero => intro calls delay sleeps last h; omega
  | succ n ih =>
    intro calls delay sleeps last _
    rw [retryLoop, hop (calls + 1)]
    simp only [hr (calls + 1), Bool.not_true, Bool.false_eq_true, if_false]
    cases n with
    | zero => simp [backoffSeq]
    | succ n' =>
      simp only [show ((n' + 1 : Nat) == 0) = false from rfl, Bool.false_eq_true,
        if_false]
      rw [ih (calls + 1) (nextDelay delay) (sleeps ++ [delay]) (some (e (calls + 1)))
        (by omega)]
      simp only [backoffSeq, List.append_assoc, List.singleton_append]
      have hc : calls + 1 + (n' + 1) = calls + (n' + 1 + 1) := by omega
      rw [hc]
      simp

/-- C5: an operation failing with a retriable error on every attempt is
invoked exactly `maxAttempts` times; the sleeps between consecutive
attempts start at `initialDelay` and double after each failure, capped at
30 s (`backoffSeq`); the returned aggregate error names the attempt count
and wraps the last underlying error. -/
theorem C5_retry_exhaustion (maxAttempts initialDelay : Nat) (op : Nat → Option GoErr)
    (e : Nat → GoErr) (hop : ∀ i, op i = some (e i))
    (hr : ∀ i, isRetriableError (e i) = true) (hM : 1 ≤ maxAttempts) :
    retryOperation maxAttempts initialDelay op =
      ⟨maxAttempts, backoffSeq initialDelay (maxAttempts - 1),
        some (aggregateErr maxAttempts (some (e maxAttempts)))⟩ := by
  have h := retryLoop_exhausts op e hop hr maxAttempts maxAttempts 0 initialDelay [] none hM
  simpa [retryOperation] using h

/-- C5, witness: three attempts at the default 2 s initial delay, every call
failing with a retriable network timeout — three invocations, sleeps of 2 s
and 4 s, and the aggregate error naming 3 attempts and wrapping the last
failure. -/
theorem C5_retry_exhaustion_witness :
    retryOperation 3 2000000000 (fun _ => some (.netError true false "i/o timeout")) =
      ⟨3, [2000000000, 4000000000],
        some (aggregateErr 3 (some (.netError true false "i/o timeout")))⟩ := by
  have h := C5_retry_exhaustion 3 2000000000 _
    (fun _ => GoErr.netError true false "i/o timeout") (fun _ => rfl) (fun _ => rfl)
    (by decide)
  simpa [backoffSeq, nextDelay, backoffCapNs] using h

/-- Evaluation of `Char.ofNat` below the surrogate range. -/
theorem char_toNat_ofNat (n : Nat) (h : n < 55296) : (Char.ofNat n).toNat = n := by
  have hv : n.isValidChar := Or.inl h
  simp [Char.ofNat, hv, Char.ofNatAux, Char.toNat, UInt32.toNat, BitVec.toNat_ofNatLt]

/-- Lowercasing commutes with the hex-digit test: `A`–`F` map into `a`–`f`
(hex on both sides), `G`–`Z` map outside the hex ranges, everything else is
unchanged. -/
theorem isHexDigitGo_goToLowerChar (c : Char) :
    isHexDigitGo (goToLowerChar c) = isHexDigitGo c := by
  unfold goToLowerChar isHexDigitGo
  by_cases h : 65 ≤ c.toNat ∧ c.toNat ≤ 90
  · have ht : (Char.ofNat (c.toNat + 32)).toNat = c.toNat + 32 :=
      char_toNat_ofNat _ (by omega)
    rw [if_pos h, ht]
    rcases h with ⟨h1, h2⟩
    refine Bool.eq_iff_iff.mpr ?_
    simp only [Bool.or_eq_true, Bool.and_eq_true, decide_eq_true_eq]
    constructor <;> intro hx <;> omega
  · simp [h]

/-- Lowercasing preserves the character count. -/
theorem goToLower_length (s : String) : (goToLower s).length = s.length := by
  show (s.data.map goToLowerChar).length = s.data.length
  exact List.length_map _ _

/-- Lowercasing preserves the all-hex test. -/
theorem goToLower_all_hex (s : String) :
    (goToLower s).data.all isHexDigitGo = s.data.all isHexDigitGo := by
  have hf : isHexDigitGo ∘ goToLowerChar = isHexDigitGo := by
    funext c
    exact isHexDigitGo_goToLowerChar c
  simp [goToLower, List.all_map, hf]

/-- The `infohash` validator applied to the lowercased trimmed argument
accepts exactly the strings the specification describes: trimmed length 40
and all characters hexadecimal (case-insensitively). -/
theorem infohashTag_lower_trim (raw : String) :
    infohashTag (goToLower (goTrimSpace raw)) = specInfoHashAccepted raw := by
  unfold infohashTag isHexString specInfoHashAccepted
  rw [goToLower_length, goToLower_all_hex]
  by_cases h40 : (goTrimSpace raw).length = 40
  · simp [h40, Bool.and_comm, Bool.and_assoc, Bool.and_self]
  · have hb : ((goTrimSpace raw).length == 40) = false :=
      beq_eq_false_iff_ne.mpr h40
    rw [hb]
    simp

/-- C8: with the other arguments held valid, event validation succeeds for an
infoHash argument exactly when, after trimming surrounding whitespace, it
has length 40 and every character is a hexadecimal digit
(case-insensitively), and the constructed event stores the lowercased
trimmed hash. -/
theorem C8_infohash_validation (raw : String) :
    exceptOk (parseAndValidateReleaseInfo
        ["Show.S01E01.mkv", raw, "tv", "1073741824", "https://indexer.example/ann"]) =
      specInfoHashAccepted raw ∧
    (match parseAndValidateReleaseInfo
        ["Show.S01E01.mkv", raw, "tv", "1073741824", "https://indexer.example/ann"] with
     | .ok r => r.InfoHash = goToLower (goTrimSpace raw)
     | .error _ => True) := by
  have hp : parseInt64 "1073741824" = some 1073741824 := by decide
  have hne1 : ¬(goTrimSpace "Show.S01E01.mkv" = "") := by decide
  have hne2 : ¬(goTrimSpace "tv" = "") := by decide
  have hne3 : ¬(goTrimSpace "https://indexer.example/ann" = "") := by decide
  have hurl : specURLValid (goTrimSpace "https://indexer.example/ann") = true := by decide
  by_cases hh : (goToLower (goTrimSpace raw)) = ""
  · have hspec : specInfoHashAccepted raw = false := by
      have hlen : (goTrimSpace raw).length = 0 := by
        have := goToLower_length (goTrimSpace raw)
        rw [hh] at this
        simpa using this.symm
      simp [specInfoHashAccepted, hlen]
    simp [parseAndValidateReleaseInfo, validateStruct, exceptOk, hp, hh, hspec,
      hne1, hne2, hne3, hurl, List.getD]
  · by_cases ht : infohashTag (goToLower (goTrimSpace raw)) = true
    · have hspec : specInfoHashAccepted raw = true := by
        rw [← infohashTag_lower_trim]; exact ht
      simp [parseAndValidateReleaseInfo, validateStruct, exceptOk, hp, hh, ht, hspec,
        hne1, hne2, hne3, hurl, List.getD]
    · have hspec : specInfoHashAccepted raw = false := by
        rw [← infohashTag_lower_trim]; simpa using ht
      simp [parseAndValidateReleaseInfo, validateStruct, exceptOk, hp, hh, ht, hspec,
        hne1, hne2, hne3, hurl, List.getD]


/-- C9: with the other arguments held valid, event validation succeeds for a
sizeString argument exactly when it parses as a base-10 integer strictly
greater than 0; `"0"` and `"-5"` fail with the `gt` validation error while
the malformed `"abc"` fails with the distinct size-parse error. -/
theorem C9_size_validation :
    (∀ sz : String,
      exceptOk (parseAndValidateReleaseInfo
        ["Show.S01E01.mkv", "aabbccddeeff00112233445566778899aabbccdd", "tv", sz,
          "https://indexer.example/ann"]) = specSizeAccepted sz) ∧
    parseAndValidateReleaseInfo
      ["Show.S01E01.mkv", "aabbccddeeff00112233445566778899aabbccdd", "tv", "0",
        "https://indexer.example/ann"] = .error (.validationFailed "Size" "gt") ∧
    parseAndValidateReleaseInfo
      ["Show.S01E01.mkv", "aabbccddeeff00112233445566778899aabbccdd", "tv", "-5",
        "https://indexer.example/ann"] = .error (.validationFailed "Size" "gt") ∧
    parseAndValidateReleaseInfo
      ["Show.S01E01.mkv", "aabbccddeeff00112233445566778899aabbccdd", "tv", "abc",
        "https://indexer.example/ann"] = .error .invalidSize ∧
    ReleaseParseErr.validationFailed "Size" "gt" ≠ ReleaseParseErr.invalidSize := by
  refine ⟨?_, rfl, rfl, rfl, by decide⟩
  intro sz
  have hne1 : ¬(goTrimSpace "Show.S01E01.mkv" = "") := by decide
  have hne2 : ¬(goTrimSpace "tv" = "") := by decide
  have hne3 : ¬(goTrimSpace "https://indexer.example/ann" = "") := by decide
  have hurl : specURLValid (goTrimSpace "https://indexer.example/ann") = true := by decide
  have hhe : ¬(goToLower (goTrimSpace "aabbccddeeff00112233445566778899aabbccdd") = "") := by
    decide
  have hht : infohashTag
      (goToLower (goTrimSpace "aabbccddeeff00112233445566778899aabbccdd")) = true := by
    decide
  cases hp : parseInt64 sz with
  | none =>
    simp [parseAndValidateReleaseInfo, exceptOk, hp, specSizeAccepted, List.getD]
  | some n =>
    by_cases hn : (0 : Int) < n
    · simp [parseAndValidateReleaseInfo, validateStruct, exceptOk, hp, hn,
        specSizeAccepted, hne1, hne2, hne3, hurl, hhe, hht, List.getD]
    · simp [parseAndValidateReleaseInfo, validateStruct, exceptOk, hp, hn,
        specSizeAccepted, hne1, hne2, hne3, hurl, hhe, hht, List.getD]

end QbtDistroless
